import Mathlib

/-!
Rack-unit occupancy model: a shallow embedding.

Shallow embedding of the rack-unit occupancy logic of the DCIM frontend
(`dcim_frontend`): the two Angular components `RackViewComponent`
(`components/rack-view/rack-view.component.ts`) and `DynamicRackComponent`
(`shared/Components/dynamic-rack/dynamic-rack.component.ts`), plus the
callers that construct occupancy entries
(`components/device-details/device-details.component.ts` and the two
unnamed detail components).

Rack slot numbers, unit counts and entry fields are JavaScript numbers used
exclusively at integer values in this code; they are modelled as `Int`
(JavaScript double arithmetic is exact on these magnitudes).  Optional JS
values (`undefined`/`null`) are modelled with `Option`; a JS `NaN` result of
a numeric parse is modelled as `Option.none`.
-/

/-- An occupancy entry, from the `@Input() occupied` element type of both
components: `{ start: number; height: number; label?: string; color?: string }`.
It represents one device placement: bottom-based start unit and height in
units. -/
structure OccEntry where
  start : Int
  height : Int
  label : Option String := none
  color : Option String := none
deriving Repr, DecidableEq

namespace RackViewComponent

/-- Embedding of `RackViewComponent.getSlots`:
`Array.from({ length: this.units }, (_, i) => this.units - i)`.
`Array.from` clamps a negative or fractional length to a natural number
(for an integer `units` this is `units.toNat`), and fills index `i` with
`units - i`. -/
def getSlots (units : Int) : List Int :=
  (List.range units.toNat).map (fun (i : Nat) => units - (i : Int))

/-- Embedding of `RackViewComponent.isOccupied`:
`this.occupied.find(o => slot >= o.start && slot < (o.start + o.height))`.
`Array.prototype.find` returns the first element satisfying the predicate,
or `undefined` (here `none`). -/
def isOccupied (occupied : List OccEntry) (slot : Int) : Option OccEntry :=
  occupied.find? (fun o => slot ≥ o.start && slot < o.start + o.height)

/-- Embedding of `RackViewComponent.shouldRenderBlock`:
`return slot === (occ.start + occ.height - 1);` — anchors the rendered
block at the topmost occupied slot. -/
def shouldRenderBlock (slot : Int) (occ : OccEntry) : Bool :=
  slot == occ.start + occ.height - 1

end RackViewComponent

namespace DynamicRackComponent

/-- Embedding of `DynamicRackComponent.getSlots`, textually identical to
`RackViewComponent.getSlots`:
`Array.from({ length: this.units }, (_, i) => this.units - i)`. -/
def getSlots (units : Int) : List Int :=
  (List.range units.toNat).map (fun (i : Nat) => units - (i : Int))

/-- Embedding of `DynamicRackComponent.isOccupied`, textually identical to
`RackViewComponent.isOccupied`:
`this.occupied.find(o => slot >= o.start && slot < (o.start + o.height))`. -/
def isOccupied (occupied : List OccEntry) (slot : Int) : Option OccEntry :=
  occupied.find? (fun o => slot ≥ o.start && slot < o.start + o.height)

/-- Embedding of `DynamicRackComponent.shouldRenderBlock`:
`return slot === occ.start;` — anchors the rendered block at the bottom
occupied slot (its own doc comment, copied from `RackViewComponent`, still
says "Topmost slot = 10 + 4 - 1 = 13, so render block there"). -/
def shouldRenderBlock (slot : Int) (occ : OccEntry) : Bool :=
  slot == occ.start

/-- The style object built by `getDeviceBlockStyle`: it always carries
`height`, `background` and `borderColor`; `opacity` is set only on the
gray-color branch. -/
structure DeviceBlockStyle where
  height : String
  background : String
  borderColor : String
  opacity : Option String := none
deriving Repr, DecidableEq

/-- Value of a hexadecimal digit character, `none` for a non-hex-digit. -/
def hexDigitVal (c : Char) : Option Nat :=
  if '0' ≤ c ∧ c ≤ '9' then some (c.toNat - '0'.toNat)
  else if 'a' ≤ c ∧ c ≤ 'f' then some (c.toNat - 'a'.toNat + 10)
  else if 'A' ≤ c ∧ c ≤ 'F' then some (c.toNat - 'A'.toNat + 10)
  else none

/-- JavaScript `parseInt(s, 16)` as used by `darkenColor`: parse the longest
prefix of hexadecimal digits, `NaN` (here `none`) when there is none.  (The
builtin also skips leading whitespace and accepts an optional sign or `0x`
prefix; those cases do not arise for the `#rrggbb` / colour-name strings this
code feeds it.) -/
def jsParseIntHex (s : String) : Option Nat :=
  let ds := s.data.takeWhile (fun c => (hexDigitVal c).isSome)
  if ds.isEmpty then none
  else some (ds.foldl (fun acc c => 16 * acc + (hexDigitVal c).getD 0) 0)

/-- JavaScript `n.toString(16)` for a natural number: lowercase hex digits. -/
def natToHexString (n : Nat) : String :=
  String.mk (Nat.toDigits 16 n)

/-- Embedding of `DynamicRackComponent.darkenColor(color, percent)`:
```
const num = parseInt(color.replace('#', ''), 16);
const amt = Math.round(2.55 * percent);
const R = Math.max(0, Math.min(255, (num >> 16) - amt));
...
return '#' + (0x1000000 + R * 0x10000 + G * 0x100 + B).toString(16).slice(1);
```
When the parse yields `NaN`, every subsequent arithmetic step is `NaN` and
`(NaN).toString(16).slice(1)` is `"aN"`, so the JS function returns `"#aN"`.
`Math.round(2.55 * percent)` is modelled as exact rational rounding
(half away from minus infinity), `⌊(51·percent + 10) / 20⌋`; IEEE-double
evaluation can differ by one unit on inputs where `2.55 * percent` lands just
under a half (e.g. `percent = 10` gives `25` in JS, `26` here) — the
difference only shifts the darkened colour string by one unit and no claim
depends on `darkenColor`'s output.  The `>> 16` shift is modelled on `Nat`
(the parsed value of a 6-hex-digit colour is below `2^31`, so the JS int32
shift agrees). -/
def darkenColor (color : String) (percent : Int) : String :=
  match jsParseIntHex (color.replace "#" "") with
  | none => "#aN"
  | some num =>
    let amt : Int := (51 * percent + 10).fdiv 20
    let R : Int := max 0 (min 255 ((num >>> 16 : Nat) - amt))
    let G : Int := max 0 (min 255 (((num >>> 8) &&& 0xFF : Nat) - amt))
    let B : Int := max 0 (min 255 ((num &&& 0xFF : Nat) - amt))
    "#" ++ (natToHexString (0x1000000 + R.toNat * 0x10000 + G.toNat * 0x100 + B.toNat)).drop 1

/-- Embedding of `DynamicRackComponent.getDeviceBlockStyle`:
```
const style: any = { height: (occ.height * 28) + 'px' };
if (!occ.color) { ...orange gradient...; return style; }
if (occ.color === '#b0b0b0' || occ.color.toLowerCase().includes('grey')) {
  ...gray gradient, opacity 0.7...; return style; }
...colour gradient...; return style;
```
`!occ.color` is true both for a missing colour and for the empty string. -/
def getDeviceBlockStyle (occ : OccEntry) : DeviceBlockStyle :=
  let heightStyle := toString (occ.height * 28) ++ "px"
  let defaultStyle : DeviceBlockStyle :=
    { height := heightStyle
      background := "linear-gradient(135deg, #ffcb69 0%, #ffd89b 100%)"
      borderColor := "#ffb84d" }
  match occ.color with
  | none => defaultStyle
  | some c =>
    if c = "" then defaultStyle
    else if c = "#b0b0b0" ∨ "grey".data <:+: c.toLower.data then
      { height := heightStyle
        background := s!"linear-gradient(135deg, {c} 0%, {darkenColor c 10} 100%)"
        borderColor := darkenColor c 20
        opacity := some "0.7" }
    else
      { height := heightStyle
        background := s!"linear-gradient(135deg, {c} 0%, {darkenColor c 10} 100%)"
        borderColor := darkenColor c 20 }

/-- A payload emitted on the `deviceClick` output: either the ad-hoc object
`{ empty: true, slot }` built by `onSlotClick`, or the occupancy entry object
forwarded by `onDeviceClick`. -/
inductive ClickPayload where
  | emptySlot (slot : Int)
  | device (occ : OccEntry)
deriving Repr, DecidableEq

/-- Embedding of `DynamicRackComponent.onDeviceClick(device)`:
`this.deviceClick.emit(device);` — modelled as the list of payloads emitted
by the call. -/
def onDeviceClick (device : OccEntry) : List ClickPayload :=
  [ClickPayload.device device]

/-- Embedding of `DynamicRackComponent.onSlotClick(slot)`:
```
const occ = this.isOccupied(slot);
if (!occ) { this.deviceClick.emit({ empty: true, slot }); }
```
modelled as the list of payloads emitted by the call (an entry object is
always truthy, so `!occ` means exactly that `find` returned `undefined`). -/
def onSlotClick (occupied : List OccEntry) (slot : Int) : List ClickPayload :=
  match isOccupied occupied slot with
  | none => [ClickPayload.emptySlot slot]
  | some _ => []

end DynamicRackComponent

/-- A JavaScript scalar as it reaches the occupancy-entry constructors:
either a string or an integer-valued number.  (`undefined`/`null` are
modelled by wrapping in `Option`; fractional numbers do not occur in rack
positions/heights.) -/
inductive JsValue where
  | str (s : String)
  | num (n : Int)
deriving Repr, DecidableEq

/-- JavaScript `String(v)` for a defined scalar. -/
def jsToString : JsValue → String
  | .str s => s
  | .num n => toString n

/-- JavaScript `String(v)` including the undefined case:
`String(undefined) = "undefined"`.  (`String(null) = "null"`, which the
`parseInt` downstream treats identically — both parse to `NaN`.) -/
def jsToStringOpt : Option JsValue → String
  | none => "undefined"
  | some v => jsToString v

/-- Truthiness test used by `x || '1'` and `if (!x)`: `undefined`, `null`,
`""`, `0` and `NaN` are falsy. -/
def jsFalsy : Option JsValue → Bool
  | none => true
  | some (.str s) => s == ""
  | some (.num n) => n == 0

/-- Numeric value of a list of decimal-digit characters. -/
def decDigitsVal (cs : List Char) : Nat :=
  cs.foldl (fun acc c => 10 * acc + (c.toNat - '0'.toNat)) 0

/-- Longest decimal-digit prefix of a character list, `none` when empty. -/
def decPrefixVal (cs : List Char) : Option Nat :=
  let ds := cs.takeWhile Char.isDigit
  if ds.isEmpty then none else some (decDigitsVal ds)

/-- JavaScript `parseInt(s, 10)`: skip leading whitespace, optional sign,
then the longest decimal-digit prefix; `NaN` (here `none`) when no digit
follows. -/
def jsParseIntDec (s : String) : Option Int :=
  match s.data.dropWhile (fun c => c.isWhitespace) with
  | [] => none
  | c :: rest =>
    if c = '-' then (decPrefixVal rest).map (fun (n : Nat) => -(n : Int))
    else if c = '+' then (decPrefixVal rest).map (fun (n : Nat) => (n : Int))
    else (decPrefixVal (c :: rest)).map (fun (n : Nat) => (n : Int))

/-- JavaScript `Number(s)` for a string: the whole (trimmed) string must be
numeric; the empty string is `0`; otherwise `NaN` (here `none`).  Only
integer literals with optional sign are modelled — fractional, exponent and
hex forms do not occur in rack positions/heights. -/
def jsNumberOfString (s : String) : Option Int :=
  let t := s.trim
  if t = "" then some 0
  else match t.data with
    | '-' :: rest =>
      if rest ≠ [] ∧ rest.all Char.isDigit then some (-(decDigitsVal rest : Int)) else none
    | '+' :: rest =>
      if rest ≠ [] ∧ rest.all Char.isDigit then some ((decDigitsVal rest : Int)) else none
    | cs => if cs.all Char.isDigit then some ((decDigitsVal cs : Int)) else none

/-- JavaScript `Number(v)` for a defined scalar. -/
def jsNumber : JsValue → Option Int
  | .num n => some n
  | .str s => jsNumberOfString s

/-- JavaScript `x || 1` on a number `x`: keep `x` unless it is falsy
(`0`, `-0` or `NaN`), in which case take `1`. -/
def jsOrOne (x : Option Int) : Int :=
  match x with
  | none => 1
  | some n => if n = 0 then 1 else n

/-- The shape of one element of the `devices` array fed to
`DeviceDetailsComponent.buildOccupiedDevices`: only `name`, `position` and
`space_required` are read. -/
structure RawDevice where
  name : Option String := none
  position : Option JsValue := none
  space_required : Option JsValue := none
deriving Repr, DecidableEq

namespace DeviceDetailsComponent

/-- Embedding of `DeviceDetailsComponent.buildOccupiedDevices(devices, currentDeviceName)`
(`components/device-details/device-details.component.ts`):
```
return devices
  .filter(d => d && (d.position !== undefined && d.position !== null))
  .map(d => {
    const isCurrentDevice = d.name && currentDeviceName &&
                            d.name.toLowerCase() === currentDeviceName.toLowerCase();
    let color = isCurrentDevice ? '#FFC107' : '#b0b0b0';
    return { start: Number(d.position) || 1, height: Number(d.space_required) || 1,
             label: d.name, color };
  });
```
A `null` array element is modelled as `Option.none` (dropped by the `d &&`
guard). -/
def buildOccupiedDevices (devices : List (Option RawDevice))
    (currentDeviceName : String) : List OccEntry :=
  ((devices.filterMap id).filter (fun d => d.position.isSome)).map (fun d =>
    let isCurrentDevice : Bool :=
      match d.name with
      | some n => n != "" && currentDeviceName != "" && n.toLower == currentDeviceName.toLower
      | none => false
    let color := if isCurrentDevice then "#FFC107" else "#b0b0b0"
    { start := jsOrOne (d.position.bind jsNumber)
      height := jsOrOne (d.space_required.bind jsNumber)
      label := d.name
      color := some color })

end DeviceDetailsComponent

/-- The fields of `this.device` read by the unnamed device-details
component's `getOccupied` (src/unnamed/part_008). -/
structure UnnamedDeviceState where
  device_name : Option String := none
  rack_slot : Option JsValue := none
  height : Option JsValue := none
deriving Repr, DecidableEq

namespace UnnamedDeviceDetails

/-- Embedding of `getOccupied` of the unnamed device-details component
(src/unnamed/part_008):
```
const slot = parseInt(String(this.device.rack_slot), 10) || 1;
const height = parseInt(String(this.device.height || '1').replace(/[^0-9]/g, ''), 10) || 1;
return [{ start: slot, height: height, label: this.device.device_name }];
```
The regex strip keeps only the characters `0-9` (it removes a minus sign
too). -/
def getOccupied (device : UnnamedDeviceState) : List OccEntry :=
  let slot := jsOrOne (jsParseIntDec (jsToStringOpt device.rack_slot))
  let heightSource := if jsFalsy device.height then JsValue.str "1"
                      else device.height.getD (JsValue.str "1")
  let height := jsOrOne (jsParseIntDec
    (String.mk ((jsToString heightSource).data.filter Char.isDigit)))
  [{ start := slot, height := height, label := device.device_name }]

end UnnamedDeviceDetails

/-- The fields of `this.rack` read by the unnamed rack-details component's
`getOccupied` (src/unnamed/part_009). -/
structure UnnamedRackState where
  rack_name : Option JsValue := none
  height_u : Option JsValue := none
deriving Repr, DecidableEq

namespace UnnamedRackDetails

/-- Embedding of `getOccupied` of the unnamed rack-details component
(src/unnamed/part_009):
```
const slot = parseInt(String(this.rack.rack_name), 10) || 1;
const height = parseInt(String(this.rack.height_u || '1').replace(/[^0-9]/g, ''), 10) || 1;
return [{ start: slot, height: height, label: this.rack.rack_name }];
```
In the component `rack_name` is a string; the `label` field records its
string rendering. -/
def getOccupied (rack : UnnamedRackState) : List OccEntry :=
  let slot := jsOrOne (jsParseIntDec (jsToStringOpt rack.rack_name))
  let heightSource := if jsFalsy rack.height_u then JsValue.str "1"
                      else rack.height_u.getD (JsValue.str "1")
  let height := jsOrOne (jsParseIntDec
    (String.mk ((jsToString heightSource).data.filter Char.isDigit)))
  [{ start := slot, height := height,
     label := rack.rack_name.map jsToString }]

end UnnamedRackDetails

/-- A slot `s` is covered by entry `o` exactly when the `find` predicate of
`isOccupied` holds: `slot >= o.start && slot < o.start + o.height`. -/
def coversSlot (o : OccEntry) (slot : Int) : Prop :=
  o.start ≤ slot ∧ slot < o.start + o.height

instance (o : OccEntry) (slot : Int) : Decidable (coversSlot o slot) := by
  unfold coversSlot; infer_instance

/-!
Theorems settling the claims about the occupancy model.
-/

/-- Bridge between the boolean `find` predicate of `isOccupied` and the
`coversSlot` proposition. -/
theorem coversSlot_iff_pred (o : OccEntry) (slot : Int) :
    (slot ≥ o.start && slot < o.start + o.height) = true ↔ coversSlot o slot := by
  simp [coversSlot, ge_iff_le, and_comm]

/-- C1: the spec's testable property demands that the anchor-slot decision
is applied consistently across the two call sites — the same boundary
(always `start` or always `start + height - 1`) in both components.  The
code violates it: at the spec's own example entry `{start: 10, height: 4}`,
`RackViewComponent.shouldRenderBlock` fires exactly at slot 13 (top) while
`DynamicRackComponent.shouldRenderBlock` fires exactly at slot 10 (bottom);
`DynamicRackComponent`'s own doc comment ("Topmost slot = 10 + 4 - 1 = 13,
so render block there") contradicts its implementation, so this is a bug in
the code, not in the spec. -/
theorem anchor_policies_diverge_at_failing_input :
    RackViewComponent.shouldRenderBlock 13 ⟨10, 4, some "Server-01", none⟩ = true ∧
    DynamicRackComponent.shouldRenderBlock 13 ⟨10, 4, some "Server-01", none⟩ = false ∧
    DynamicRackComponent.shouldRenderBlock 10 ⟨10, 4, some "Server-01", none⟩ = true ∧
    RackViewComponent.shouldRenderBlock 10 ⟨10, 4, some "Server-01", none⟩ = false := by
  decide

/-- C2: the two block-rendering anchor policies differ.  For every entry
with `height ≥ 2`, `RackViewComponent.shouldRenderBlock` holds exactly at
`start + height - 1` (top of the device), `DynamicRackComponent.shouldRenderBlock`
holds exactly at `start` (bottom), and each function rejects the other's
anchor slot, so the two disagree on every such entry. -/
theorem shouldRenderBlock_policies_differ (occ : OccEntry) (slot : Int)
    (h : 2 ≤ occ.height) :
    (RackViewComponent.shouldRenderBlock slot occ = true ↔
      slot = occ.start + occ.height - 1) ∧
    (DynamicRackComponent.shouldRenderBlock slot occ = true ↔ slot = occ.start) ∧
    RackViewComponent.shouldRenderBlock occ.start occ = false ∧
    DynamicRackComponent.shouldRenderBlock (occ.start + occ.height - 1) occ = false := by
  unfold RackViewComponent.shouldRenderBlock DynamicRackComponent.shouldRenderBlock
  refine ⟨by simp, by simp, ?_, ?_⟩ <;> simp <;> omega

/-- Witness for C2 at the spec's example entry `{start: 10, height: 4}`. -/
theorem shouldRenderBlock_policies_differ_witness :
    (RackViewComponent.shouldRenderBlock 13 ⟨10, 4, none, none⟩ = true ↔
      (13 : Int) = 10 + 4 - 1) ∧
    (DynamicRackComponent.shouldRenderBlock 13 ⟨10, 4, none, none⟩ = true ↔
      (13 : Int) = 10) ∧
    RackViewComponent.shouldRenderBlock 10 ⟨10, 4, none, none⟩ = false ∧
    DynamicRackComponent.shouldRenderBlock 13 ⟨10, 4, none, none⟩ = false :=
  shouldRenderBlock_policies_differ ⟨10, 4, none, none⟩ 13 (by decide)

/-- C8: the visual height of the rendered device block is the entry's
height times the unit pixel size of 28: the style's `height` field is
`(height * 28) + 'px'`, on every branch of `getDeviceBlockStyle`. -/
theorem getDeviceBlockStyle_height_pixels (occ : OccEntry) :
    (DynamicRackComponent.getDeviceBlockStyle occ).height =
      toString (occ.height * 28) ++ "px" := by
  unfold DynamicRackComponent.getDeviceBlockStyle
  cases occ.color with
  | none => rfl
  | some c =>
    by_cases h1 : c = "" <;>
      by_cases h2 : c = "#b0b0b0" ∨ "grey".data <:+: c.toLower.data <;>
      simp [h1, h2]

/-- C10: a non-positive rack unit count yields a rack with no slots rather
than an error, in both components (`Array.from` clamps a non-positive
length to 0). -/
theorem getSlots_nonpositive_empty (units : Int) (h : units ≤ 0) :
    RackViewComponent.getSlots units = [] ∧
    DynamicRackComponent.getSlots units = [] := by
  have h0 : units.toNat = 0 := Int.toNat_of_nonpos h
  constructor <;>
    simp only [RackViewComponent.getSlots, DynamicRackComponent.getSlots] <;>
    rw [h0] <;> rfl

/-- Witness for C10 at `units = -2`. -/
theorem getSlots_nonpositive_empty_witness :
    RackViewComponent.getSlots (-2) = [] ∧ DynamicRackComponent.getSlots (-2) = [] :=
  getSlots_nonpositive_empty (-2) (by decide)

/-- C4: for every positive `units`, `getSlots` returns the slot numbers
from `units` down to 1: it has length `units`, starts at `units`, ends at
1, is strictly descending, and both components produce the same sequence. -/
theorem getSlots_descending_enumeration (units : Int) (h : 0 < units) :
    (RackViewComponent.getSlots units).length = units.toNat ∧
    (RackViewComponent.getSlots units).head? = some units ∧
    (RackViewComponent.getSlots units).getLast? = some 1 ∧
    List.Pairwise (fun a b => b < a) (RackViewComponent.getSlots units) ∧
    DynamicRackComponent.getSlots units = RackViewComponent.getSlots units := by
  obtain ⟨m, hm⟩ : ∃ m : Nat, units.toNat = m + 1 := ⟨units.toNat - 1, by omega⟩
  unfold RackViewComponent.getSlots DynamicRackComponent.getSlots
  refine ⟨by simp, ?_, ?_, ?_, rfl⟩
  · rw [hm, List.range_succ_eq_map]
    simp
  · rw [hm, List.range_succ, List.map_append]
    simp only [List.map_cons, List.map_nil]
    rw [List.getLast?_concat]
    have : units - (m : Int) = 1 := by omega
    rw [this]
  · exact List.Pairwise.map _ (fun a b hab => by omega) (List.pairwise_lt_range _)

/-- Witness for C4 at `units = 42`. -/
theorem getSlots_descending_enumeration_witness :
    (RackViewComponent.getSlots 42).length = (42 : Int).toNat ∧
    (RackViewComponent.getSlots 42).head? = some 42 ∧
    (RackViewComponent.getSlots 42).getLast? = some 1 ∧
    List.Pairwise (fun a b => b < a) (RackViewComponent.getSlots 42) ∧
    DynamicRackComponent.getSlots 42 = RackViewComponent.getSlots 42 :=
  getSlots_descending_enumeration 42 (by decide)

/-- C3: for a single entry `{start, height}`, `isOccupied(s)` returns that
entry exactly when `start ≤ s ≤ start + height - 1` and returns no entry
otherwise, for every slot `s` in `[1, units]`; both components compute the
same lookup. -/
theorem isOccupied_singleton_range (e : OccEntry) (units s : Int)
    (_h1 : 1 ≤ s) (_h2 : s ≤ units) :
    (DynamicRackComponent.isOccupied [e] s = some e ↔
      e.start ≤ s ∧ s ≤ e.start + e.height - 1) ∧
    (DynamicRackComponent.isOccupied [e] s = none ↔
      ¬(e.start ≤ s ∧ s ≤ e.start + e.height - 1)) ∧
    RackViewComponent.isOccupied [e] s = DynamicRackComponent.isOccupied [e] s := by
  refine ⟨?_, ?_, rfl⟩ <;>
    · unfold DynamicRackComponent.isOccupied
      rw [List.find?_singleton]
      split <;> rename_i hp <;> simp only [ge_iff_le, Bool.and_eq_true,
        decide_eq_true_eq] at hp <;> simp <;> omega

/-- Witness for C3: the spec's example `units = 42`, entry
`{start: 10, height: 4, label: "Server-01"}` — slot 13 is occupied by the
entry, slots 9 and 14 are not. -/
theorem isOccupied_singleton_range_witness :
    DynamicRackComponent.isOccupied [⟨10, 4, some "Server-01", none⟩] 13 =
      some ⟨10, 4, some "Server-01", none⟩ ∧
    DynamicRackComponent.isOccupied [⟨10, 4, some "Server-01", none⟩] 9 = none ∧
    DynamicRackComponent.isOccupied [⟨10, 4, some "Server-01", none⟩] 14 = none :=
  ⟨(isOccupied_singleton_range ⟨10, 4, some "Server-01", none⟩ 42 13
      (by decide) (by decide)).1.mpr (by decide),
   (isOccupied_singleton_range ⟨10, 4, some "Server-01", none⟩ 42 9
      (by decide) (by decide)).2.1.mpr (by decide),
   (isOccupied_singleton_range ⟨10, 4, some "Server-01", none⟩ 42 14
      (by decide) (by decide)).2.1.mpr (by decide)⟩

/-- C5: for two entries whose occupied ranges `[start, start + height - 1]`
do not overlap, a lookup at a slot inside either range returns the entry
owning that range, and (when the first range is non-empty) the two entries
are distinct objects. -/
theorem isOccupied_disjoint_entries (a b : OccEntry) (s : Int)
    (hdisj : a.start + a.height - 1 < b.start ∨ b.start + b.height - 1 < a.start) :
    ((a.start ≤ s ∧ s ≤ a.start + a.height - 1) →
      DynamicRackComponent.isOccupied [a, b] s = some a) ∧
    ((b.start ≤ s ∧ s ≤ b.start + b.height - 1) →
      DynamicRackComponent.isOccupied [a, b] s = some b) ∧
    (1 ≤ a.height → a ≠ b) := by
  refine ⟨?_, ?_, ?_⟩
  · intro hs
    have ha : (s ≥ a.start && s < a.start + a.height) = true := by
      simp only [ge_iff_le, Bool.and_eq_true, decide_eq_true_eq]
      omega
    simp [DynamicRackComponent.isOccupied, List.find?_cons, ha]
  · intro hs
    have ha : (s ≥ a.start && s < a.start + a.height) = false := by
      rw [Bool.eq_false_iff]
      simp only [ne_eq, ge_iff_le, Bool.and_eq_true, decide_eq_true_eq, not_and, not_lt]
      intro hle
      rcases hdisj with hd | hd <;> omega
    have hb : (s ≥ b.start && s < b.start + b.height) = true := by
      simp only [ge_iff_le, Bool.and_eq_true, decide_eq_true_eq]
      omega
    simp [DynamicRackComponent.isOccupied, List.find?_cons, ha, hb]
  · intro hha hab
    rcases hdisj with hd | hd <;> rw [hab] at hd hha <;> omega

/-- Witness for C5: entries `{start: 2, height: 2}` and `{start: 10, height: 3}`
with disjoint ranges; slot 3 resolves to the first, slot 11 to the second. -/
theorem isOccupied_disjoint_entries_witness :
    DynamicRackComponent.isOccupied [⟨2, 2, none, none⟩, ⟨10, 3, none, none⟩] 3 =
      some ⟨2, 2, none, none⟩ ∧
    DynamicRackComponent.isOccupied [⟨2, 2, none, none⟩, ⟨10, 3, none, none⟩] 11 =
      some ⟨10, 3, none, none⟩ ∧
    (⟨2, 2, none, none⟩ : OccEntry) ≠ ⟨10, 3, none, none⟩ :=
  ⟨(isOccupied_disjoint_entries ⟨2, 2, none, none⟩ ⟨10, 3, none, none⟩ 3
      (by decide)).1 (by decide),
   (isOccupied_disjoint_entries ⟨2, 2, none, none⟩ ⟨10, 3, none, none⟩ 11
      (by decide)).2.1 (by decide),
   (isOccupied_disjoint_entries ⟨2, 2, none, none⟩ ⟨10, 3, none, none⟩ 3
      (by decide)).2.2 (by decide)⟩

/-- C6: clicking a slot covered by no entry emits exactly the payload
`{empty: true, slot}` on the `deviceClick` output; clicking a covered slot
emits nothing from `onSlotClick`; and clicking an occupied entry's block
(`onDeviceClick`) emits that entry object (label included). -/
theorem onSlotClick_onDeviceClick_emissions (occupied : List OccEntry) (slot : Int) :
    ((∀ o ∈ occupied, ¬ coversSlot o slot) →
      DynamicRackComponent.onSlotClick occupied slot =
        [DynamicRackComponent.ClickPayload.emptySlot slot]) ∧
    ((∃ o ∈ occupied, coversSlot o slot) →
      DynamicRackComponent.onSlotClick occupied slot = []) ∧
    (∀ d : OccEntry, DynamicRackComponent.onDeviceClick d =
      [DynamicRackComponent.ClickPayload.device d]) := by
  refine ⟨?_, ?_, fun d => rfl⟩
  · intro hnone
    have hfind : DynamicRackComponent.isOccupied occupied slot = none := by
      unfold DynamicRackComponent.isOccupied
      rw [List.find?_eq_none]
      exact fun x hx hpx => hnone x hx ((coversSlot_iff_pred x slot).mp hpx)
    simp [DynamicRackComponent.onSlotClick, hfind]
  · rintro ⟨o, ho, hc⟩
    cases hfind : DynamicRackComponent.isOccupied occupied slot with
    | none =>
      exfalso
      unfold DynamicRackComponent.isOccupied at hfind
      exact absurd ((coversSlot_iff_pred o slot).mpr hc) (List.find?_eq_none.mp hfind o ho)
    | some w =>
      simp [DynamicRackComponent.onSlotClick, hfind]

/-- Witness for C6: the spec's example — clicking slot 20 with no covering
entry emits `{empty: true, slot: 20}`; clicking occupied slot 12 emits
nothing from `onSlotClick`; clicking the block of the labelled entry emits
the entry with its label. -/
theorem onSlotClick_onDeviceClick_emissions_witness :
    DynamicRackComponent.onSlotClick [⟨10, 4, some "Server-01", none⟩] 20 =
      [DynamicRackComponent.ClickPayload.emptySlot 20] ∧
    DynamicRackComponent.onSlotClick [⟨10, 4, some "Server-01", none⟩] 12 = [] ∧
    DynamicRackComponent.onDeviceClick ⟨10, 4, some "Server-01", none⟩ =
      [DynamicRackComponent.ClickPayload.device ⟨10, 4, some "Server-01", none⟩] :=
  ⟨(onSlotClick_onDeviceClick_emissions [⟨10, 4, some "Server-01", none⟩] 20).1
      (by decide),
   (onSlotClick_onDeviceClick_emissions [⟨10, 4, some "Server-01", none⟩] 12).2.1
      ⟨⟨10, 4, some "Server-01", none⟩, by decide, by decide⟩,
   (onSlotClick_onDeviceClick_emissions [⟨10, 4, some "Server-01", none⟩] 12).2.2
      ⟨10, 4, some "Server-01", none⟩⟩

/-- C7: `isOccupied` is total on arbitrary entry lists and slots (it is a
plain function in this embedding, defined without any range validation);
when several entries cover a slot, the first one in list order wins; an
entry with non-positive height covers no slot at all; and both components
perform the identical lookup. -/
theorem isOccupied_first_match_tolerant (pre post : List OccEntry) (e : OccEntry)
    (slot : Int) :
    ((coversSlot e slot ∧ ∀ o ∈ pre, ¬ coversSlot o slot) →
      DynamicRackComponent.isOccupied (pre ++ e :: post) slot = some e) ∧
    (e.height ≤ 0 → ∀ t : Int, ¬ coversSlot e t) ∧
    (∀ (l : List OccEntry) (t : Int),
      RackViewComponent.isOccupied l t = DynamicRackComponent.isOccupied l t) := by
  refine ⟨?_, ?_, fun l t => rfl⟩
  · rintro ⟨hc, hpre⟩
    unfold DynamicRackComponent.isOccupied
    rw [List.find?_append]
    have h1 : List.find? (fun o => slot ≥ o.start && slot < o.start + o.height) pre =
        none :=
      List.find?_eq_none.mpr
        (fun x hx hpx => hpre x hx ((coversSlot_iff_pred x slot).mp hpx))
    have hpe := (coversSlot_iff_pred e slot).mpr hc
    simp [h1, List.find?_cons, hpe]
  · intro hh t
    rintro ⟨ht1, ht2⟩
    omega

/-- Witness for C7: with overlapping entries `{start: 2, height: 10}` and
`{start: 5, height: 3}` both covering slot 6, the first in list order wins
(the zero-height entry `{start: 4, height: 0}` ahead of them covers
nothing). -/
theorem isOccupied_first_match_tolerant_witness :
    DynamicRackComponent.isOccupied
        [⟨4, 0, none, none⟩, ⟨2, 10, none, none⟩, ⟨5, 3, none, none⟩] 6 =
      some ⟨2, 10, none, none⟩ ∧
    ¬ coversSlot ⟨4, 0, none, none⟩ 6 :=
  ⟨(isOccupied_first_match_tolerant [⟨4, 0, none, none⟩] [⟨5, 3, none, none⟩]
      ⟨2, 10, none, none⟩ 6).1 ⟨by decide, by decide⟩,
   (isOccupied_first_match_tolerant [] [] ⟨4, 0, none, none⟩ 6).2.1 (by decide) 6⟩

/-- The coercion `x || 1` never produces 0: zero and `NaN` are replaced by 1 and any
other value is kept. -/
theorem jsOrOne_ne_zero (x : Option Int) : jsOrOne x ≠ 0 := by
  rcases x with _ | n <;> simp only [jsOrOne]
  · omega
  · split <;> omega

/-- The coercion `x || 1` is at least 1 whenever the parsed value cannot be negative. -/
theorem one_le_jsOrOne_of_nonneg (x : Option Int) (hx : ∀ n, x = some n → 0 ≤ n) :
    1 ≤ jsOrOne x := by
  rcases x with _ | n <;> simp only [jsOrOne]
  · omega
  · have := hx n rfl
    split <;> omega

/-- Parsing a string of decimal digits only with `parseInt(s, 10)` (as produced by the
`replace(/[^0-9]/g, '')` strip) cannot return a negative value: the strip
removes any minus sign before the parse. -/
theorem jsParseIntDec_all_digits_nonneg (s : String)
    (hall : ∀ c ∈ s.data, c.isDigit = true) (n : Int)
    (h : jsParseIntDec s = some n) : 0 ≤ n := by
  unfold jsParseIntDec at h
  cases hdw : s.data.dropWhile (fun c => c.isWhitespace) with
  | nil => rw [hdw] at h; simp at h
  | cons c rest =>
    rw [hdw] at h
    have hcmem : c ∈ s.data :=
      (List.dropWhile_sublist (fun c => c.isWhitespace)).subset
        (by rw [hdw]; exact List.mem_cons_self c rest)
    have hcdig : c.isDigit = true := hall c hcmem
    have hc1 : ¬ c = '-' := by rintro rfl; exact absurd hcdig (by decide)
    have hc2 : ¬ c = '+' := by rintro rfl; exact absurd hcdig (by decide)
    dsimp only at h
    rw [if_neg hc1, if_neg hc2] at h
    obtain ⟨m, _, hfm⟩ := Option.map_eq_some'.mp h
    omega

/-- C9 (amended): every occupancy entry constructed by the rack-view callers
has a non-zero `start` and non-zero `height` — missing, zero or unparsable
values default to 1, and devices whose `position` is `null`/`undefined` are
excluded from the list entirely; in the two unnamed `getOccupied` helpers
the height is moreover always ≥ 1 (the regex strip removes any minus sign
before parsing).  The unamended claim `start ≥ 1` fails because a negative
parsed position passes `|| 1` unchanged (see the counterexample). -/
theorem occupancy_entry_constructors_defaults
    (devices : List (Option RawDevice)) (currentDeviceName : String)
    (dev : UnnamedDeviceState) (rack : UnnamedRackState) :
    (∀ e ∈ DeviceDetailsComponent.buildOccupiedDevices devices currentDeviceName,
      e.start ≠ 0 ∧ e.height ≠ 0) ∧
    (∀ e ∈ UnnamedDeviceDetails.getOccupied dev, e.start ≠ 0 ∧ 1 ≤ e.height) ∧
    (∀ e ∈ UnnamedRackDetails.getOccupied rack, e.start ≠ 0 ∧ 1 ≤ e.height) ∧
    (∀ d : RawDevice, d.position = none →
      DeviceDetailsComponent.buildOccupiedDevices (some d :: devices)
          currentDeviceName =
        DeviceDetailsComponent.buildOccupiedDevices devices currentDeviceName) ∧
    (DeviceDetailsComponent.buildOccupiedDevices (none :: devices)
        currentDeviceName =
      DeviceDetailsComponent.buildOccupiedDevices devices currentDeviceName) := by
  refine ⟨?_, ?_, ?_, ?_, ?_⟩
  · intro e he
    obtain ⟨d, hd, rfl⟩ := List.mem_map.mp he
    exact ⟨jsOrOne_ne_zero _, jsOrOne_ne_zero _⟩
  · intro e he
    rw [UnnamedDeviceDetails.getOccupied, List.mem_singleton] at he
    subst he
    refine ⟨jsOrOne_ne_zero _, one_le_jsOrOne_of_nonneg _ ?_⟩
    intro n hn
    exact jsParseIntDec_all_digits_nonneg _
      (fun c hc => (List.mem_filter.mp hc).2) n hn
  · intro e he
    rw [UnnamedRackDetails.getOccupied, List.mem_singleton] at he
    subst he
    refine ⟨jsOrOne_ne_zero _, one_le_jsOrOne_of_nonneg _ ?_⟩
    intro n hn
    exact jsParseIntDec_all_digits_nonneg _
      (fun c hc => (List.mem_filter.mp hc).2) n hn
  · intro d hpos
    simp [DeviceDetailsComponent.buildOccupiedDevices, List.filterMap_cons,
      List.filter_cons, hpos]
  · simp [DeviceDetailsComponent.buildOccupiedDevices, List.filterMap_cons]

/-- Witness for (amended) C9: the sample device of the unnamed
device-details component (`rack_slot: '10'`, `height: '4U'`) yields the
entry `{start: 10, height: 4}` with non-zero start and height ≥ 1. -/
theorem occupancy_entry_constructors_defaults_witness :
    (⟨10, 4, some "dmi01-r01-s46", none⟩ : OccEntry).start ≠ 0 ∧
    (1 : Int) ≤ (⟨10, 4, some "dmi01-r01-s46", none⟩ : OccEntry).height :=
  (occupancy_entry_constructors_defaults [] ""
      ⟨some "dmi01-r01-s46", some (JsValue.str "10"), some (JsValue.str "4U")⟩
      ⟨none, none⟩).2.1
    ⟨10, 4, some "dmi01-r01-s46", none⟩
    (by decide)

/-- Counterexample to C9 as stated: a device whose `position` parses to a
negative number is not excluded and is not defaulted — `Number(-3) || 1`
keeps `-3` — so `buildOccupiedDevices` constructs an entry with
`start = -3 < 1`. -/
theorem buildOccupiedDevices_negative_start :
    DeviceDetailsComponent.buildOccupiedDevices
        [some { name := some "dev-1", position := some (JsValue.num (-3)),
                space_required := some (JsValue.num 2) }] "" =
      [{ start := -3, height := 2, label := some "dev-1",
         color := some "#b0b0b0" }] ∧
    ¬ (1 ≤ (-3 : Int)) := by
  constructor
  · decide
  · decide
